import Mathlib

set_option maxRecDepth 4000

/-
Shallow embedding of the asynchronous job execution engine of
`src/mcp-shell-cmd.js` (MCP shell server).  JavaScript strings are modelled
as Lean `String`, the `jobs` Map as an association list in insertion order,
timestamps (`Date.now()`) as explicit `Nat` parameters, and `null` exit codes
as `Option Int`.  Signal delivery (`SIGTERM`/`SIGKILL`) is operating-system
I/O that changes no field of a Job Record, so it has no state effect in the
embedding; the `spawned` field of `ServerState` records which commands had an
OS process started for them.
-/

namespace McpShell

/-- Job status: `'running' | 'done' | 'error' | 'killed'` in the source. -/
inductive Status where
  | running
  | done
  | error
  | killed
deriving DecidableEq

/-- The Job Record created by `createJob` (src/mcp-shell-cmd.js:29-40).
`proc` models whether the process handle is still attached (`job.proc`
non-null). -/
structure Job where
  id : String
  command : String
  shell : String
  status : Status
  stdout : String
  stderr : String
  exitCode : Option Int
  startTime : Nat
  lastOutputTime : Nat
  outputLines : Nat
  proc : Bool
deriving DecidableEq

/-- The `jobs` Map (src/mcp-shell-cmd.js:13): keys in insertion order. -/
abbrev Registry : Type := List (String × Job)

/-- JavaScript `\s` on the ASCII range: space, tab, LF, VT, FF, CR. -/
def isJsWsp (c : Char) : Bool :=
  c.toNat == 32 || c.toNat == 9 || c.toNat == 10 || c.toNat == 11 ||
  c.toNat == 12 || c.toNat == 13

/-- JavaScript `String.prototype.trim()`. -/
def jsTrim (s : String) : String :=
  String.mk (((s.data.dropWhile isJsWsp).reverse.dropWhile isJsWsp).reverse)

/-- `cmd.trim().split(/\s+/)[0]`: the first whitespace-delimited token of an
already-trimmed string (empty when the string is empty). -/
def firstToken (s : String) : String :=
  String.mk (s.data.takeWhile (fun c => !(isJsWsp c)))

/-- JavaScript `String.prototype.toLowerCase()` on ASCII text. -/
def jsLower (s : String) : String :=
  String.mk (s.data.map Char.toLower)

/-- `cmd.trim().split(/\s+/)[0].toLowerCase()` (src/mcp-shell-cmd.js:17). -/
def lowerFirstToken (cmd : String) : String :=
  jsLower (firstToken (jsTrim cmd))

/-- The `BLACKLISTED` denylist (src/mcp-shell-cmd.js:10). -/
def BLACKLISTED : List String :=
  ["rm", "rmdir", "del", "format", "mkfs", "dd", "chmod", "chown",
   "sudo", "su", "shutdown", "reboot"]

/-- JavaScript `\w`: `[A-Za-z0-9_]`. -/
def isWordChar (c : Char) : Bool := c.isAlphanum || c == '_'

/-- Attempt to match the regex `cmd\s+\/c\s+[""]?(\w+)` (with the `i` flag;
the optional quote is a double or single quote, code points 34 and 39) at the
head of the character list, returning the `\w+` capture.  Greedy matching of
`\s+` needs no backtracking here because `/`, quotes and word characters are
never whitespace. -/
def matchCmdC : List Char → Option (List Char)
  | c1 :: c2 :: c3 :: rest =>
    if c1.toLower == 'c' && c2.toLower == 'm' && c3.toLower == 'd' then
      let r1 := rest.dropWhile isJsWsp
      if r1.length < rest.length then
        match r1 with
        | s1 :: s2 :: r2 =>
          if s1 == '/' && s2.toLower == 'c' then
            let r3 := r2.dropWhile isJsWsp
            if r3.length < r2.length then
              let r4 := match r3 with
                | q :: t => if q.toNat == 34 || q.toNat == 39 then t else r3
                | [] => r3
              let w := r4.takeWhile isWordChar
              if w.isEmpty then none else some w
            else none
          else none
        | _ => none
      else none
    else none
  | _ => none

/-- `cmd.match(/cmd\s+\/c\s+[""]?(\w+)/i)`: scan left to right for the first
position where the pattern matches, as the JavaScript regex engine does. -/
def findCmdC : List Char → Option (List Char)
  | [] => none
  | c :: rest =>
    match matchCmdC (c :: rest) with
    | some w => some w
    | none => findCmdC rest

/-- `validateCommand` (src/mcp-shell-cmd.js:16-23): reject when the first
token, lower-cased, is denylisted; when that token is `cmd`, first try to
extract the wrapped command after `/c` and test that instead. -/
def validateCommand (cmd : String) : Bool :=
  if lowerFirstToken cmd = "cmd" then
    match findCmdC cmd.data with
    | some w => !(BLACKLISTED.contains (jsLower (String.mk w)))
    | none => !(BLACKLISTED.contains (lowerFirstToken cmd))
  else !(BLACKLISTED.contains (lowerFirstToken cmd))

/-- `text.split('\n')` accumulator: split a character list at every LF,
keeping empty segments (JavaScript `split` semantics, which also keeps a
trailing empty segment after a final newline). -/
def splitNLAux : List Char → List Char → List (List Char)
  | [], acc => [acc.reverse]
  | c :: rest, acc =>
    if c = '\n' then acc.reverse :: splitNLAux rest [] else splitNLAux rest (c :: acc)

/-- JavaScript `s.split('\n')`. -/
def jsSplitNL (s : String) : List String :=
  (splitNLAux s.data []).map String.mk

/-- Number of newline characters in a string. -/
def countNL (s : String) : Nat := s.data.count '\n'

/-- The fresh Job Record built by `createJob` (src/mcp-shell-cmd.js:29-40):
status `running`, empty buffers, unset exit code, both timestamps at the
creation instant, zero line counter, process handle attached. -/
def mkJobRecord (id command shell : String) (now : Nat) : Job :=
  { id := id, command := command, shell := shell, status := Status.running,
    stdout := "", stderr := "", exitCode := none, startTime := now,
    lastOutputTime := now, outputLines := 0, proc := true }

/-- The stdout `data` handler (src/mcp-shell-cmd.js:54-59): append the chunk,
stamp `lastOutputTime`, and add `text.split('\n').length - 1` to the
incremental line counter. -/
def onStdout (j : Job) (text : String) (now : Nat) : Job :=
  { j with stdout := j.stdout ++ text, lastOutputTime := now,
           outputLines := j.outputLines + ((jsSplitNL text).length - 1) }

/-- The stderr `data` handler (src/mcp-shell-cmd.js:61-65). -/
def onStderr (j : Job) (text : String) (now : Nat) : Job :=
  { j with stderr := j.stderr ++ text, lastOutputTime := now }

/-- The process `close` handler (src/mcp-shell-cmd.js:67-71); `code` is
`null` (`none`) when the process died from a signal. -/
def onClose (j : Job) (code : Option Int) : Job :=
  { j with status := Status.done, exitCode := code, proc := false }

/-- The process `error` handler (src/mcp-shell-cmd.js:73-77). -/
def onError (j : Job) (msg : String) : Job :=
  { j with status := Status.error,
           stderr := j.stderr ++ "\nProcess error: " ++ msg, proc := false }

/-- The Job-Record mutation of `killJob` (src/mcp-shell-cmd.js:117): sets
`status = 'killed'` unconditionally; the SIGTERM/SIGKILL sends are I/O with
no field effect, and `job.proc` is not cleared by `killJob` itself. -/
def killUpdate (j : Job) : Job := { j with status := Status.killed }

/-- The result object of `pollJob` (src/mcp-shell-cmd.js:92-103). -/
structure PollResult where
  id : String
  status : Status
  exitCode : Option Int
  elapsedMs : Nat
  idleSinceMs : Nat
  totalLines : Nat
  fromLine : Nat
  output : String
  stderr : String
  isStalled : Bool
deriving DecidableEq

/-- `pollJob`'s computation on a found job (src/mcp-shell-cmd.js:87-103):
split stdout on newlines, slice from `fromLine`, re-join with newlines;
stalled iff idle strictly more than 30000 ms while still running. -/
def pollJob (j : Job) (fromLine : Nat) (now : Nat) : PollResult :=
  let lines := jsSplitNL j.stdout
  { id := j.id, status := j.status, exitCode := j.exitCode,
    elapsedMs := now - j.startTime, idleSinceMs := now - j.lastOutputTime,
    totalLines := lines.length, fromLine := fromLine,
    output := String.intercalate "\n" (lines.drop fromLine),
    stderr := j.stderr,
    isStalled := decide (30000 < now - j.lastOutputTime) &&
                 decide (j.status = Status.running) }

/-- `jobs.get(id)`: first association with the given key. -/
def lookup : Registry → String → Option Job
  | [], _ => none
  | (k, j) :: rest, id => if k = id then some j else lookup rest id

/-- In-place mutation of the Job object stored under `id` (JavaScript objects
are held by reference in the Map). -/
def updateJob (R : Registry) (id : String) (f : Job → Job) : Registry :=
  R.map (fun p => if p.1 = id then (p.1, f p.2) else p)

/-- `jobs.delete(id)`. -/
def deleteJob (R : Registry) (id : String) : Registry :=
  R.filter (fun p => p.1 != id)

/-- `pollJob` at the registry level (src/mcp-shell-cmd.js:83-104): unknown
ids yield the error object `{ error: `Job not found: id` }`. -/
def pollOp (R : Registry) (id : String) (fromLine now : Nat) :
    Except String PollResult :=
  match lookup R id with
  | none => Except.error ("Job not found: " ++ id)
  | some j => Except.ok (pollJob j fromLine now)

/-- `killJob` at the registry level (src/mcp-shell-cmd.js:106-119): unknown
ids yield `Job not found`; otherwise `{ success: true, id }` and the job's
status is set to `killed`. -/
def killOp (R : Registry) (id : String) : Except String String × Registry :=
  match lookup R id with
  | none => (Except.error ("Job not found: " ++ id), R)
  | some _ => (Except.ok id, updateJob R id killUpdate)

/-- `cleanupJob` (src/mcp-shell-cmd.js:135-142): evict a found non-running
job; otherwise return the single combined error object
`{ error: 'Job still running or not found' }`. -/
def cleanupOp (R : Registry) (id : String) : Except String Unit × Registry :=
  match lookup R id with
  | some j =>
    if j.status ≠ Status.running then (Except.ok (), deleteJob R id)
    else (Except.error "Job still running or not found", R)
  | none => (Except.error "Job still running or not found", R)

/-- One reaper sweep (src/mcp-shell-cmd.js:288-295): delete every job that is
not `running` and whose age strictly exceeds 300000 ms. -/
def reapSweep (now : Nat) (R : Registry) : Registry :=
  R.filter (fun p =>
    !(decide (p.2.status ≠ Status.running) && decide (300000 < now - p.2.startTime)))

/-- One entry of the `listJobs` result (src/mcp-shell-cmd.js:121-133). -/
structure JobSummary where
  id : String
  command : String
  status : Status
  elapsedMs : Nat
  outputLines : Nat
deriving DecidableEq

/-- `listJobs` (src/mcp-shell-cmd.js:121-133). -/
def listJobs (R : Registry) (now : Nat) : List JobSummary :=
  R.map (fun p =>
    { id := p.1, command := p.2.command.take 100, status := p.2.status,
      elapsedMs := now - p.2.startTime, outputLines := p.2.outputLines })

/-- Server-side mutable state: the job counter, the `jobs` Map, and the
commands for which an OS process has been spawned. -/
structure ServerState where
  jobCounter : Nat
  jobs : Registry
  spawned : List String
deriving DecidableEq

/-- `createJob` (src/mcp-shell-cmd.js:25-81): allocate the next counter
value, build the id, spawn the process, register the fresh record. -/
def createJobOp (st : ServerState) (command shell : String) (now : Nat) :
    String × ServerState :=
  let n := st.jobCounter + 1
  let id := "job_" ++ toString n ++ "_" ++ toString now
  (id, { jobCounter := n,
         jobs := st.jobs ++ [(id, mkJobRecord id command shell now)],
         spawned := st.spawned ++ [command] })

/-- Result of the `start_command` tool branch. -/
inductive StartResult where
  | blacklisted
  | started (jobId : String)
deriving DecidableEq

/-- The `start_command` branch of `handleRequest`
(src/mcp-shell-cmd.js:222-228): reject denylisted commands before creating
any job, otherwise create the job and return its id. -/
def startCommand (st : ServerState) (command shell : String) (now : Nat) :
    StartResult × ServerState :=
  if validateCommand command then
    let p := createJobOp st command shell now
    (StartResult.started p.1, p.2)
  else (StartResult.blacklisted, st)

/-- The `poll_command` branch of `handleRequest`
(src/mcp-shell-cmd.js:230-233): it calls `pollJob`, which performs no write
to any job field, so the server state is returned unchanged. -/
def pollCall (st : ServerState) (id : String) (fromLine now : Nat) :
    Except String PollResult × ServerState :=
  (pollOp st.jobs id fromLine now, st)

/-- A freshly created running job, used as a concrete scenario for the
state-machine claims. -/
def jRunC1 : Job := mkJobRecord "job_1_0" "sleep 900" "cmd" 0

/-- A job whose accumulated stdout is exactly the four-segment buffer
`"a\nb\nc\n"`, delivered as one stdout chunk at time 5. -/
def jC2 : Job := onStdout (mkJobRecord "job_1_0" "pr" "cmd" 0) "a\nb\nc\n" 5

/-- A still-running job for the removal claims. -/
def jRunC3 : Job := mkJobRecord "job_1_0" "sleep 900" "cmd" 0

/-- A finished job (close event with exit code 0) for the removal claims. -/
def jDoneC3 : Job := onClose (mkJobRecord "job_2_0" "ver" "cmd" 0) (some 0)

/-- Registry holding the single running job under id `"r"`. -/
def RrunC3 : Registry := [("r", jRunC3)]

/-- Registry holding the single finished job under id `"d"`. -/
def RdoneC3 : Registry := [("d", jDoneC3)]

/-- A running job for the kill-idempotence witness. -/
def jC4 : Job := mkJobRecord "job_1_7" "ping x" "cmd" 7

/-- Registry holding that job under its id. -/
def RC4 : Registry := [("job_1_7", jC4)]

/-- A terminal (done) job that has been idle far beyond the stall
threshold. -/
def jTermC6 : Job :=
  onClose (onStdout (mkJobRecord "job_1_0" "ver" "cmd" 0) "out\n" 3) (some 0)

/-- Two job records sharing the same stdout buffer but differing in status,
timestamps and stderr, for the poll-determinism witness. -/
def jC7a : Job := onStdout (mkJobRecord "job_1_0" "e1" "cmd" 0) "x\ny" 4

/-- Second record with the same stdout but other fields changed. -/
def jC7b : Job := onClose (onStderr (onStdout (mkJobRecord "job_2_9" "e2" "bash" 9) "x\ny" 12) "warn" 13) (some 1)

/-- A server state holding one job, for the poll and submit witnesses. -/
def stC7 : ServerState := { jobCounter := 1, jobs := [("job_1_0", jC7a)], spawned := ["e1"] }

/-- The initial empty server state. -/
def st0C8 : ServerState := { jobCounter := 0, jobs := [], spawned := [] }

/-- A registry with one old done job, one young done job and one old running
job, for the reaper witness. -/
def RC9 : Registry :=
  [("old_done", onClose (mkJobRecord "old_done" "a" "cmd" 0) (some 0)),
   ("young_done", onClose (mkJobRecord "young_done" "b" "cmd" 350000) (some 0)),
   ("old_run", mkJobRecord "old_run" "c" "cmd" 0)]

/-- Splitting on newlines yields one more segment than there are newline
characters, whatever the accumulator already holds. -/
theorem splitNLAux_length (l acc : List Char) :
    (splitNLAux l acc).length = l.count '\n' + 1 := by
  induction l generalizing acc with
  | nil => simp [splitNLAux]
  | cons c rest ih =>
    by_cases h : c = '\n'
    · simp [splitNLAux, h, ih, List.count_cons]
    · simp [splitNLAux, h, ih, List.count_cons]

/-- `s.split('\n').length = countNL s + 1`. -/
theorem jsSplitNL_length (s : String) :
    (jsSplitNL s).length = countNL s + 1 := by
  simp [jsSplitNL, countNL, splitNLAux_length]

/-- Counting newlines is a homomorphism under string concatenation. -/
theorem countNL_append (a b : String) :
    countNL (a ++ b) = countNL a + countNL b := by
  simp [countNL, String.data_append, List.count_append]

/-- Looking up the updated id sees the updated job. -/
theorem lookup_updateJob (R : Registry) (id : String) (f : Job → Job) :
    lookup (updateJob R id f) id = (lookup R id).map f := by
  induction R with
  | nil => rfl
  | cons p rest ih =>
    obtain ⟨k, j⟩ := p
    simp only [updateJob, List.map_cons]
    by_cases h : k = id
    · rw [if_pos h]
      subst h
      simp [lookup]
    · rw [if_neg h]
      simp only [lookup, h, if_false]
      simpa [updateJob] using ih

/-- A deleted id is gone from the registry. -/
theorem lookup_deleteJob (R : Registry) (id : String) :
    lookup (deleteJob R id) id = none := by
  induction R with
  | nil => rfl
  | cons p rest ih =>
    obtain ⟨k, j⟩ := p
    by_cases h : k = id
    · simpa [deleteJob, h] using ih
    · simpa [deleteJob, lookup, h] using ih

/-- C1: the claim says that once `status` is `done`, `error` or `killed` no
later operation or callback changes it, and that `exitCode` is set iff
`status == done`.  The code violates this: `killJob` sets `status = 'killed'`
unconditionally even on a finished job (leaving `exitCode` set with
`status ≠ done`), and the process `close` handler sets `status = 'done'` and
`exitCode` unconditionally even on a job already marked `killed` (the real
sequence after a SIGTERM, with `code = null`). -/
theorem C1_terminal_status_overwritten :
    (onClose jRunC1 (some 0)).status = Status.done ∧
    (onClose jRunC1 (some 0)).exitCode = some 0 ∧
    (killUpdate (onClose jRunC1 (some 0))).status = Status.killed ∧
    (killUpdate (onClose jRunC1 (some 0))).exitCode = some 0 ∧
    (killUpdate jRunC1).status = Status.killed ∧
    (onClose (killUpdate jRunC1) none).status = Status.done ∧
    (onClose (killUpdate jRunC1) none).exitCode = none := by
  decide

/-- C2 counterexample: for the stdout buffer `"a\nb\nc\n"`, the claim says
`poll(id, 0).output == "a\nb\nc"`; the code actually re-joins the segments
including the trailing empty one, producing `"a\nb\nc\n"`. -/
theorem C2_output_counterexample :
    (pollJob jC2 0 10).output = "a\nb\nc\n" ∧
    ("a\nb\nc\n" : String) ≠ "a\nb\nc" := by
  decide

/-- C2 (amended): for a job whose accumulated stdout is exactly
`"a\nb\nc\n"`, `poll(id, 0).output == "a\nb\nc\n"` and
`poll(id, 1).output == "b\nc\n"` (the slice keeps the trailing empty segment,
so the trailing newline is echoed back), `poll(id, 5).output == ""` (an
offset beyond the buffer end yields empty output, not an error), and
`totalLines == 4`. -/
theorem C2_offset_amended :
    (pollJob jC2 0 10).output = "a\nb\nc\n" ∧
    (pollJob jC2 1 10).output = "b\nc\n" ∧
    (pollJob jC2 5 10).output = "" ∧
    (pollJob jC2 0 10).totalLines = 4 := by
  decide

/-- C5: the guard rejects `"rm -rf /"` and `"cmd /c del foo"` and accepts
`"ls -la"`; and on every command whose first whitespace-delimited token,
lower-cased, is not the `cmd` wrapper, it rejects exactly when that token is
in the fixed denylist. -/
theorem C5_guard :
    validateCommand "rm -rf /" = false ∧
    validateCommand "ls -la" = true ∧
    validateCommand "cmd /c del foo" = false ∧
    (∀ cmd : String, lowerFirstToken cmd ≠ "cmd" →
      validateCommand cmd = !(BLACKLISTED.contains (lowerFirstToken cmd))) := by
  refine ⟨by decide, by decide, by decide, ?_⟩
  intro cmd h
  simp [validateCommand, h]

/-- C5 witness: the denylist characterization applied at `"ls -la"`. -/
theorem C5_guard_witness :
    validateCommand "ls -la" = !(BLACKLISTED.contains (lowerFirstToken "ls -la")) :=
  C5_guard.2.2.2 "ls -la" (by decide)

/-- C3 counterexample: the claim says `remove` on an unknown id returns a
not-found result distinct from other errors and identical to the one `poll`
and `kill` return; in the code `cleanupJob` returns the single combined
error `'Job still running or not found'` both for unknown ids and for
running jobs, while `poll` and `kill` return `'Job not found: <id>'`. -/
theorem C3_notfound_conflated :
    (cleanupOp ([] : Registry) "zz").1 = Except.error "Job still running or not found" ∧
    pollOp ([] : Registry) "zz" 0 0 = Except.error "Job not found: zz" ∧
    (killOp ([] : Registry) "zz").1 = Except.error "Job not found: zz" ∧
    ("Job still running or not found" : String) ≠ "Job not found: zz" ∧
    (cleanupOp RrunC3 "r").1 = Except.error "Job still running or not found" := by
  refine ⟨rfl, rfl, rfl, by decide, rfl⟩

/-- C3 (amended): `remove` on an unknown id returns the same combined error
as on a still-running job (`'Job still running or not found'`), which is not
the `'Job not found: <id>'` result that `poll` and `kill` return for unknown
ids; on a running job it leaves the record in place; on any terminal job it
evicts the record and reports success. -/
theorem C3_remove_amended (R : Registry) (id : String) :
    (lookup R id = none →
      cleanupOp R id = (Except.error "Job still running or not found", R) ∧
      pollOp R id 0 0 = Except.error ("Job not found: " ++ id) ∧
      killOp R id = (Except.error ("Job not found: " ++ id), R)) ∧
    (∀ j : Job, lookup R id = some j → j.status = Status.running →
      cleanupOp R id = (Except.error "Job still running or not found", R)) ∧
    (∀ j : Job, lookup R id = some j → j.status ≠ Status.running →
      (cleanupOp R id).1 = Except.ok () ∧ lookup (cleanupOp R id).2 id = none) := by
  refine ⟨?_, ?_, ?_⟩
  · intro h
    simp [cleanupOp, pollOp, killOp, h]
  · intro j hj hs
    simp [cleanupOp, hj, hs]
  · intro j hj hs
    simp [cleanupOp, hj, hs, lookup_deleteJob]

/-- C3 witness: the three branches of the removal contract at concrete
registries. -/
theorem C3_remove_amended_witness :
    (cleanupOp ([] : Registry) "zz" = (Except.error "Job still running or not found", ([] : Registry)) ∧
     pollOp ([] : Registry) "zz" 0 0 = Except.error ("Job not found: " ++ "zz") ∧
     killOp ([] : Registry) "zz" = (Except.error ("Job not found: " ++ "zz"), ([] : Registry))) ∧
    cleanupOp RrunC3 "r" = (Except.error "Job still running or not found", RrunC3) ∧
    ((cleanupOp RdoneC3 "d").1 = Except.ok () ∧ lookup (cleanupOp RdoneC3 "d").2 "d" = none) :=
  ⟨(C3_remove_amended [] "zz").1 rfl,
   (C3_remove_amended RrunC3 "r").2.1 jRunC3 rfl rfl,
   (C3_remove_amended RdoneC3 "d").2.2 jDoneC3 rfl (by decide)⟩

/-- C4: for any id present in the registry, `kill` returns
`{ success: true, id }` every time; immediately afterwards the job's status
is `killed` (whether or not the process handle is still attached), and a
second `kill` again returns success and leaves the status `killed`. -/
theorem C4_kill_idempotent (R : Registry) (id : String) (j : Job)
    (h : lookup R id = some j) :
    (killOp R id).1 = Except.ok id ∧
    lookup (killOp R id).2 id = some (killUpdate j) ∧
    (killUpdate j).status = Status.killed ∧
    (killOp (killOp R id).2 id).1 = Except.ok id ∧
    lookup (killOp (killOp R id).2 id).2 id = some (killUpdate j) := by
  have h1 : killOp R id = (Except.ok id, updateJob R id killUpdate) := by
    simp [killOp, h]
  have h2 : lookup (updateJob R id killUpdate) id = some (killUpdate j) := by
    rw [lookup_updateJob, h]
    rfl
  have h3 : killOp (updateJob R id killUpdate) id =
      (Except.ok id, updateJob (updateJob R id killUpdate) id killUpdate) := by
    simp [killOp, h2]
  refine ⟨by rw [h1], by rw [h1]; exact h2, rfl, by rw [h1, h3], ?_⟩
  rw [h1, h3]
  show lookup (updateJob (updateJob R id killUpdate) id killUpdate) id = _
  rw [lookup_updateJob, h2]
  rfl

/-- C4 witness: both kills on a concrete one-job registry. -/
theorem C4_kill_idempotent_witness :
    (killOp RC4 "job_1_7").1 = Except.ok "job_1_7" ∧
    lookup (killOp RC4 "job_1_7").2 "job_1_7" = some (killUpdate jC4) ∧
    (killUpdate jC4).status = Status.killed ∧
    (killOp (killOp RC4 "job_1_7").2 "job_1_7").1 = Except.ok "job_1_7" ∧
    lookup (killOp (killOp RC4 "job_1_7").2 "job_1_7").2 "job_1_7" = some (killUpdate jC4) :=
  C4_kill_idempotent RC4 "job_1_7" jC4 rfl

/-- C6: `poll` reports `isStalled` exactly when the idle time strictly
exceeds 30000 ms and the job is still running; a non-running job is never
stalled, and a job polled at the instant it produced output on either stream
is not stalled. -/
theorem C6_stall (j : Job) (k now : Nat) :
    ((pollJob j k now).isStalled = true ↔
      (30000 < now - j.lastOutputTime ∧ j.status = Status.running)) ∧
    (j.status ≠ Status.running → (pollJob j k now).isStalled = false) ∧
    (∀ text : String, (pollJob (onStdout j text now) k now).isStalled = false) ∧
    (∀ text : String, (pollJob (onStderr j text now) k now).isStalled = false) := by
  refine ⟨?_, ?_, ?_, ?_⟩
  · simp [pollJob]
  · intro h
    simp [pollJob, h]
  · intro text
    simp [pollJob, onStdout, Nat.sub_self]
  · intro text
    simp [pollJob, onStderr, Nat.sub_self]

/-- C6 witness: a finished job idle far past the threshold is not stalled. -/
theorem C6_stall_witness :
    (pollJob jTermC6 0 99999).isStalled = false :=
  (C6_stall jTermC6 0 99999).2.1 (by decide)

/-- C7: the `poll_command` branch leaves the server state unchanged, and the
`output` and `totalLines` of a poll depend only on the stdout buffer and the
offset: two polls with the same `fromLine` against equal stdout buffers agree
whatever the poll instants and the other job fields. -/
theorem C7_poll_readonly (st : ServerState) (id : String) (k t1 t2 : Nat)
    (j j' : Job) (h : j.stdout = j'.stdout) :
    (pollCall st id k t1).2 = st ∧
    (pollJob j k t1).output = (pollJob j' k t2).output ∧
    (pollJob j k t1).totalLines = (pollJob j' k t2).totalLines := by
  refine ⟨rfl, ?_, ?_⟩ <;> simp [pollJob, h]

/-- C7 witness: two records with the same stdout but different status,
timestamps and stderr yield the same incremental output. -/
theorem C7_poll_readonly_witness :
    (pollCall stC7 "job_1_0" 1 20).2 = stC7 ∧
    (pollJob jC7a 1 20).output = (pollJob jC7b 1 99).output ∧
    (pollJob jC7a 1 20).totalLines = (pollJob jC7b 1 99).totalLines :=
  C7_poll_readonly stC7 "job_1_0" 1 20 99 jC7a jC7b rfl

/-- C8: a command rejected by the guard makes `start_command` answer
`blacklisted` and leaves the whole server state untouched: no job record, no
counter increment, no spawned process. -/
theorem C8_blacklisted_no_job (st : ServerState) (command shell : String)
    (now : Nat) (h : validateCommand command = false) :
    startCommand st command shell now = (StartResult.blacklisted, st) := by
  simp [startCommand, h]

/-- C8 witness: submitting `"rm -rf /"` to the empty server state. -/
theorem C8_blacklisted_no_job_witness :
    startCommand st0C8 "rm -rf /" "cmd" 7 = (StartResult.blacklisted, st0C8) :=
  C8_blacklisted_no_job st0C8 "rm -rf /" "cmd" 7 (by decide)

/-- C9: a reaper sweep keeps an entry exactly when it was already present
and is either still running or at most 300000 ms old; equivalently it
removes exactly the non-running jobs strictly older than the retention
window, never a running job. -/
theorem C9_reaper (now : Nat) (R : Registry) (id : String) (j : Job) :
    (id, j) ∈ reapSweep now R ↔
      ((id, j) ∈ R ∧ (j.status = Status.running ∨ now - j.startTime ≤ 300000)) := by
  simp only [reapSweep, List.mem_filter, Bool.not_eq_true', Bool.and_eq_false_iff,
    decide_eq_false_iff_not, Decidable.not_not, Nat.not_lt]

/-- C9 witness: on a registry with an old done job, a young done job and an
old running job, the sweep at time 400000 keeps exactly the latter two. -/
theorem C9_reaper_witness :
    (("old_done", onClose (mkJobRecord "old_done" "a" "cmd" 0) (some 0)) ∈ reapSweep 400000 RC9 ↔
      ((("old_done", onClose (mkJobRecord "old_done" "a" "cmd" 0) (some 0)) ∈ RC9) ∧
        ((onClose (mkJobRecord "old_done" "a" "cmd" 0) (some 0)).status = Status.running ∨
          400000 - (onClose (mkJobRecord "old_done" "a" "cmd" 0) (some 0)).startTime ≤ 300000))) :=
  C9_reaper 400000 RC9 "old_done" (onClose (mkJobRecord "old_done" "a" "cmd" 0) (some 0))

/-- C10: starting from a fresh record, after any sequence of stdout chunks
arriving at any instants, the incrementally maintained `outputLines` counter
equals the number of newline characters in the whole accumulated stdout
buffer, and `pollJob`'s `totalLines` is always that counter plus one —
newline counting is a homomorphism under concatenation, so chunk boundaries
never make the counter diverge from the on-demand split. -/
theorem C10_line_counter (chunks : List (String × Nat)) (id command shell : String)
    (t0 k now : Nat) :
    (chunks.foldl (fun jb p => onStdout jb p.1 p.2) (mkJobRecord id command shell t0)).outputLines
      = countNL (chunks.foldl (fun jb p => onStdout jb p.1 p.2) (mkJobRecord id command shell t0)).stdout ∧
    (pollJob (chunks.foldl (fun jb p => onStdout jb p.1 p.2) (mkJobRecord id command shell t0)) k now).totalLines
      = (chunks.foldl (fun jb p => onStdout jb p.1 p.2) (mkJobRecord id command shell t0)).outputLines + 1 := by
  have inv : ∀ (cs : List (String × Nat)) (j : Job), j.outputLines = countNL j.stdout →
      (cs.foldl (fun jb p => onStdout jb p.1 p.2) j).outputLines
        = countNL (cs.foldl (fun jb p => onStdout jb p.1 p.2) j).stdout := by
    intro cs
    induction cs with
    | nil => intro j h; exact h
    | cons c rest ih =>
      intro j h
      apply ih
      simp [onStdout, jsSplitNL_length, countNL_append, h]
  have h0 : (mkJobRecord id command shell t0).outputLines
      = countNL (mkJobRecord id command shell t0).stdout := rfl
  have h1 := inv chunks (mkJobRecord id command shell t0) h0
  refine ⟨h1, ?_⟩
  simp [pollJob, jsSplitNL_length, h1]

end McpShell
